import Mathlib

/-!
Verification of the schema-tolerant query/rendering pipeline of `src/app.py`
(a Streamlit dashboard over an `Accounts` table).

The Python source is shallowly embedded: database values become the inductive
type `Value` (SQL NULL, exact numerics, strings), pandas DataFrames become the
structure `DF`, driver calls become total functions `String → List Value →
Except String QueryResult` (an `Except.error` models a raised driver
exception caught by the surrounding `try`/`except` blocks), and each page
body becomes a pure function.  Machine floats are modelled by exact integers
(the claims under study concern data flow and aggregation structure, not
floating point rounding).
-/

/-- A cell value as returned by the database driver / stored in a DataFrame:
SQL NULL (`vnull`), a numeric (`vnum`, modelled exactly), or a string. -/
inductive Value where
  | vnull
  | vnum (n : Int)
  | vstr (s : String)
deriving DecidableEq, Repr

/-- Python truthiness of a cell value: `None`, `0` and `""` are falsy.
Used by `balance if balance else 0` at line 177 of `app.py`. -/
def pyTruthy : Value → Bool
  | Value.vnull => false
  | Value.vnum n => decide (n ≠ 0)
  | Value.vstr s => decide (s ≠ "")

/-- Result of a successful `cursor.execute` + `fetchall`: the column names of
`cursor.description` plus the fetched rows (each row an ordered tuple). -/
structure QueryResult where
  cols : List String
  rows : List (List Value)
deriving DecidableEq, Repr

/-- A live connection: a total map from (sql, parameters) to the driver
outcome.  `Except.error msg` models a driver exception carrying `msg`. -/
structure DBConn where
  run : String → List Value → Except String QueryResult

/-- A pandas DataFrame: ordered column names plus rows. -/
structure DF where
  cols : List String
  rows : List (List Value)
deriving DecidableEq, Repr

/-- Width that `pd.DataFrame(data, columns=...)` infers from list-of-lists
data: the maximum row length. -/
def dfWidth (data : List (List Value)) : Nat :=
  data.foldl (fun m r => max m r.length) 0

/-- Pad a short row with NaN (here `vnull`) up to width `w`, as the pandas
list-of-lists constructor does. -/
def padRow (w : Nat) (r : List Value) : List Value :=
  r ++ List.replicate (w - r.length) Value.vnull

/-- `pd.DataFrame(data, columns=cols)` from list-of-lists data: succeeds when
the inferred data width equals `cols.length` (short rows padded with NaN),
and raises `ValueError` (modelled `none`) otherwise.  An empty data list
yields an empty frame with the given columns. -/
def mkDF (data : List (List Value)) (cols : List String) : Option DF :=
  if data.isEmpty then some ⟨cols, []⟩
  else if dfWidth data = cols.length then some ⟨cols, data.map (padRow cols.length)⟩
  else none

/-- The expected columns of the "Top 5 Accounts by Balance" table
(`app.py` line 256 / 274). -/
def expectedCols : List String := ["Account Number", "Balance", "Account Type"]

/-- `df[name] = v` for a column `name` not yet present: appends the column
filled with the scalar `v` (lines 269 and 271 of `app.py`). -/
def addColumn (df : DF) (name : String) (v : Value) : DF :=
  ⟨df.cols ++ [name], df.rows.map (fun r => r ++ [v])⟩

/-- Lines 252-274 of `app.py`: turn the fetched `top_accounts` rows into
`df_top_accounts`.  Nonempty result with first-row arity ≥ 3: build the frame
directly over `expectedCols`.  Smaller arity: build over the present prefix of
the expected names and back-fill the missing columns with the defaults
`Balance = 0.0` and `"Account Type" = "Unknown"`.  Empty result: empty frame
with the expected columns.  `none` models the `ValueError` that
`pd.DataFrame` raises when the data width does not match the column count. -/
def adaptTop5 (tops : List (List Value)) : Option DF :=
  if tops.isEmpty then
    some ⟨expectedCols, []⟩
  else if 3 ≤ (tops.headD []).length then
    mkDF tops expectedCols
  else
    let cols := ["Account Number"]
      ++ (if 1 < (tops.headD []).length then ["Balance"] else [])
      ++ (if 2 < (tops.headD []).length then ["Account Type"] else [])
    match mkDF tops cols with
    | none => none
    | some df =>
      let df1 := if "Balance" ∈ df.cols then df else addColumn df "Balance" (Value.vnum 0)
      let df2 := if "Account Type" ∈ df1.cols then df1 else addColumn df1 "Account Type" (Value.vstr "Unknown")
      some df2

lemma dfWidth_aux (n : Nat) :
    ∀ (data : List (List Value)) (acc : Nat), (∀ r ∈ data, r.length = n) →
      data.foldl (fun m r => max m r.length) acc = if data = [] then acc else max acc n := by
  intro data
  induction data with
  | nil => intro acc _; simp
  | cons r rest ih =>
    intro acc h
    have hr : r.length = n := h r (List.mem_cons_self r rest)
    have hrest : ∀ x ∈ rest, x.length = n := fun x hx => h x (List.mem_cons_of_mem r hx)
    simp only [List.foldl_cons, hr, ih (max acc n) hrest]
    rcases Decidable.em (rest = []) with he | he
    · simp [he]
    · simp [he, Nat.max_assoc, Nat.max_self]

lemma dfWidth_const (n : Nat) (data : List (List Value)) (hne : data ≠ [])
    (h : ∀ r ∈ data, r.length = n) : dfWidth data = n := by
  unfold dfWidth
  rw [dfWidth_aux n data 0 h]
  simp [hne]

lemma padRow_exact (r : List Value) (n : Nat) (h : r.length = n) : padRow n r = r := by
  unfold padRow
  rw [h]
  simp

lemma mkDF_uniform (n : Nat) (data : List (List Value)) (cols : List String)
    (hne : data ≠ []) (h : ∀ r ∈ data, r.length = n) (hc : cols.length = n) :
    mkDF data cols = some ⟨cols, data⟩ := by
  unfold mkDF
  rw [dfWidth_const n data hne h, hc]
  have : data.map (padRow n) = data := by
    calc data.map (padRow n) = data.map id := by
          apply List.map_congr_left
          intro r hr
          exact padRow_exact r n (h r hr)
      _ = data := List.map_id data
  simp [hne, this]

/-- C2 (amended): for row sets of uniform arity `n` with `1 ≤ n ≤ 3` (and for
the empty row set), the adapted table's columns are exactly `expectedCols` in
order, and every row is the input row extended positionally with the
documented defaults `Balance = 0.0`, `"Account Type" = "Unknown"` for the
columns beyond arity `n`. -/
theorem c2_adapt_columns (tops : List (List Value)) (n : Nat)
    (h1 : 1 ≤ n) (h3 : n ≤ 3) (h : ∀ r ∈ tops, r.length = n) :
    adaptTop5 tops
      = some ⟨expectedCols,
          tops.map (fun r => r ++ List.drop (n - 1) [Value.vnum 0, Value.vstr "Unknown"])⟩ := by
  rcases Decidable.em (tops = []) with he | he
  · subst he; simp [adaptTop5, expectedCols]
  · obtain ⟨r0, rest, rfl⟩ := List.exists_cons_of_ne_nil he
    have hr0 : r0.length = n := h r0 (List.mem_cons_self r0 rest)
    have hne : r0 :: rest ≠ [] := by simp
    interval_cases n
    · -- arity 1
      have hcols : mkDF (r0 :: rest) ["Account Number"] = some ⟨["Account Number"], r0 :: rest⟩ :=
        mkDF_uniform 1 (r0 :: rest) ["Account Number"] hne h (by simp)
      simp only [adaptTop5, List.isEmpty_cons, Bool.false_eq_true, if_false,
        List.headD_cons, hr0]
      norm_num
      rw [hcols]
      simp [addColumn, expectedCols, List.map_map, Function.comp]
    · -- arity 2
      have hcols : mkDF (r0 :: rest) ["Account Number", "Balance"]
          = some ⟨["Account Number", "Balance"], r0 :: rest⟩ :=
        mkDF_uniform 2 (r0 :: rest) ["Account Number", "Balance"] hne h (by simp)
      simp only [adaptTop5, List.isEmpty_cons, Bool.false_eq_true, if_false,
        List.headD_cons, hr0]
      norm_num
      rw [hcols]
      simp [addColumn, expectedCols, List.map_map, Function.comp]
    · -- arity 3
      have hcols : mkDF (r0 :: rest) expectedCols = some ⟨expectedCols, r0 :: rest⟩ :=
        mkDF_uniform 3 (r0 :: rest) expectedCols hne h (by simp [expectedCols])
      simp only [adaptTop5, List.isEmpty_cons, Bool.false_eq_true, if_false,
        List.headD_cons, hr0]
      norm_num
      rw [hcols]

/-- Witness for C2 at a concrete arity-2 input. -/
theorem c2_adapt_columns_witness :
    adaptTop5 [[Value.vstr "ACC-7", Value.vnum 12]]
      = some ⟨expectedCols,
          [[Value.vstr "ACC-7", Value.vnum 12]].map
            (fun r => r ++ List.drop (2 - 1) [Value.vnum 0, Value.vstr "Unknown"])⟩ :=
  c2_adapt_columns [[Value.vstr "ACC-7", Value.vnum 12]] 2 (by decide) (by decide)
    (by intro r hr; simp at hr; subst hr; rfl)

/-- Counterexample to C2 as stated: a RecordSet whose rows have four columns
does not yield a DisplayTable at all — `pd.DataFrame(rows, columns=3 names)`
raises `ValueError` (`none` in the model). -/
theorem c2_counterexample_wide_rows :
    adaptTop5 [[Value.vnum 1, Value.vnum 2, Value.vnum 3, Value.vnum 4]] = none := by
  decide

/-- C3 (amended): adapting the empty RecordSet yields the expected columns
with zero rows (not an error), and adapting any row set of uniform arity
between 1 and 3 succeeds. -/
theorem c3_adapt_total :
    adaptTop5 [] = some ⟨expectedCols, []⟩ ∧
    ∀ (tops : List (List Value)) (n : Nat), 1 ≤ n → n ≤ 3 →
      (∀ r ∈ tops, r.length = n) → (adaptTop5 tops).isSome = true := by
  constructor
  · simp [adaptTop5]
  · intro tops n h1 h3 h
    rw [c2_adapt_columns tops n h1 h3 h]
    rfl

/-- Witness for C3 at a concrete arity-1 input. -/
theorem c3_adapt_total_witness :
    (adaptTop5 [[Value.vstr "ACC-8"]]).isSome = true :=
  c3_adapt_total.2 [[Value.vstr "ACC-8"]] 1 (by decide) (by decide)
    (by intro r hr; simp at hr; subst hr; rfl)

/-- Counterexample to C3 as stated: adaptation is not failure-free — a
RecordSet whose rows have five columns (none of them matching the expected
names) makes `pd.DataFrame` raise instead of producing a table of defaults. -/
theorem c3_counterexample_wide_rows :
    adaptTop5 [[Value.vnull, Value.vnull, Value.vnull, Value.vnull, Value.vnull]] = none := by
  decide

/-! ### The per-account-type aggregation loop (lines 161-186 of `app.py`) -/

/-- One stored account row: `AccountType` (string) and nullable `Balance`. -/
structure AccountRow where
  accountType : String
  balance : Option Int
deriving DecidableEq, Repr

/-- Lookup in an insertion-ordered association list (a Python dict). -/
def lookupAssoc {α : Type} : List (Value × α) → Value → Option α
  | [], _ => none
  | (k, v) :: rest, t => if k = t then some v else lookupAssoc rest t

/-- Dict assignment `d[k] = v`: replace the first binding of `k`, or append a
new binding (Python dicts preserve insertion order). -/
def updateAssoc {α : Type} : List (Value × α) → Value → α → List (Value × α)
  | [], k, v => [(k, v)]
  | (k1, v1) :: rest, k, v =>
    if k1 = k then (k1, v) :: rest else (k1, v1) :: updateAssoc rest k v

/-- The loop of lines 170-179: walk the fetched `AccountType` values; on the
first occurrence of a type, record count 1 and fetch
`SELECT SUM(Balance) ... WHERE AccountType = ?` through `sumFor`, storing
`balance if balance else 0`; on a repeat occurrence, bump the count.  A failed
sum query aborts the loop (the exception propagates to the page handler). -/
def typeLoop (sumFor : Value → Except String Value) :
    List Value → List (Value × Nat) → List (Value × Value) →
    Except String (List (Value × Nat) × List (Value × Value))
  | [], counts, balances => Except.ok (counts, balances)
  | t :: ts, counts, balances =>
    match lookupAssoc counts t with
    | none =>
      match sumFor t with
      | Except.error e => Except.error e
      | Except.ok b =>
        typeLoop sumFor ts (counts ++ [(t, 1)])
          (balances ++ [(t, if pyTruthy b then b else Value.vnum 0)])
    | some c => typeLoop sumFor ts (updateAssoc counts t (c + 1)) balances

/-- `SELECT SUM(Balance) FROM Accounts WHERE AccountType = ?` evaluated over a
snapshot of the table: SQL `SUM` ignores NULLs and is itself NULL when no
non-null value matches. -/
def sqlSumWhereType (rows : List AccountRow) (t : Value) : Value :=
  match (rows.filter (fun r => decide (Value.vstr r.accountType = t))).filterMap
      (fun r => r.balance) with
  | [] => Value.vnull
  | v :: vs => Value.vnum ((v :: vs).foldl (fun a b => a + b) 0)

/-- The balance total the claim describes: sum of the metric over the group's
rows with null treated as 0. -/
def balSumNullZero (rows : List AccountRow) (t : String) : Int :=
  ((rows.filter (fun r => decide (r.accountType = t))).map
    (fun r => r.balance.getD 0)).foldl (fun a b => a + b) 0

/-- The balance value the loop stores for type `t` against a snapshot. -/
def pyBal (rows : List AccountRow) (t : String) : Value :=
  if pyTruthy (sqlSumWhereType rows (Value.vstr t)) then sqlSumWhereType rows (Value.vstr t)
  else Value.vnum 0

/-- First-seen deduplication with an explicit `seen` accumulator. -/
def firstSeenFrom (seen : List String) : List String → List String
  | [] => []
  | t :: ts => if t ∈ seen then firstSeenFrom seen ts else t :: firstSeenFrom (seen ++ [t]) ts

/-- The distinct values of a list in order of first occurrence. -/
def firstSeen (l : List String) : List String := firstSeenFrom [] l

/-- Number of occurrences of `t` in `l`. -/
def cnt (l : List String) (t : String) : Nat :=
  (l.filter (fun x => decide (x = t))).length

lemma cnt_append (l1 l2 : List String) (t : String) :
    cnt (l1 ++ l2) t = cnt l1 t + cnt l2 t := by
  unfold cnt
  rw [List.filter_append, List.length_append]

lemma cnt_singleton (x t : String) : cnt [x] t = if x = t then 1 else 0 := by
  unfold cnt
  rcases Decidable.em (x = t) with he | he <;> simp [he]

lemma cnt_eq_zero_of_not_mem (l : List String) (t : String) (h : t ∉ l) : cnt l t = 0 := by
  unfold cnt
  have hnil : l.filter (fun x => decide (x = t)) = [] := by
    rw [List.filter_eq_nil_iff]
    intro x hx
    simp only [decide_eq_true_eq]
    intro hxt
    exact h (hxt ▸ hx)
  rw [hnil]
  rfl

lemma mem_firstSeenFrom (seen l : List String) (x : String) :
    x ∈ firstSeenFrom seen l ↔ x ∈ l ∧ x ∉ seen := by
  induction l generalizing seen with
  | nil => simp [firstSeenFrom]
  | cons t ts ih =>
    rcases Decidable.em (t ∈ seen) with hm | hm
    · simp only [firstSeenFrom, if_pos hm, ih]
      constructor
      · rintro ⟨hx, hns⟩; exact ⟨List.mem_cons_of_mem t hx, hns⟩
      · rintro ⟨hx, hns⟩
        rcases List.mem_cons.mp hx with rfl | hx
        · exact absurd hm hns
        · exact ⟨hx, hns⟩
    · simp only [firstSeenFrom, if_neg hm, List.mem_cons, ih]
      constructor
      · rintro (rfl | ⟨hx, hns⟩)
        · exact ⟨Or.inl rfl, hm⟩
        · refine ⟨Or.inr hx, fun hs => hns ?_⟩
          exact List.mem_append_left [t] hs
      · rintro ⟨hx, hns⟩
        rcases Decidable.em (x = t) with rfl | hxt
        · exact Or.inl rfl
        · rcases hx with rfl | hx
          · exact Or.inl rfl
          · right
            refine ⟨hx, fun hs => ?_⟩
            rcases List.mem_append.mp hs with hs | hs
            · exact hns hs
            · simp only [List.mem_singleton] at hs
              exact hxt hs

lemma mem_firstSeen (l : List String) (x : String) : x ∈ firstSeen l ↔ x ∈ l := by
  unfold firstSeen
  rw [mem_firstSeenFrom]
  simp

lemma firstSeenFrom_append_singleton (seen l : List String) (t : String) :
    firstSeenFrom seen (l ++ [t])
      = firstSeenFrom seen l ++ (if t ∈ seen ∨ t ∈ l then [] else [t]) := by
  induction l generalizing seen with
  | nil =>
    rcases Decidable.em (t ∈ seen) with hm | hm <;>
      simp [firstSeenFrom, hm]
  | cons a l2 ih =>
    have hcons : (a :: l2) ++ [t] = a :: (l2 ++ [t]) := rfl
    rw [hcons]
    rcases Decidable.em (a ∈ seen) with hm | hm
    · simp only [firstSeenFrom, if_pos hm, ih]
      congr 1
      rcases Decidable.em (t ∈ seen ∨ t ∈ l2) with ht | ht
      · rw [if_pos ht, if_pos]
        rcases ht with h1 | h1
        · exact Or.inl h1
        · exact Or.inr (List.mem_cons_of_mem a h1)
      · rw [if_neg ht, if_neg]
        rintro (h1 | h1)
        · exact ht (Or.inl h1)
        · rcases List.mem_cons.mp h1 with rfl | h1
          · exact ht (Or.inl hm)
          · exact ht (Or.inr h1)
    · simp only [firstSeenFrom, if_neg hm, ih, List.cons_append]
      congr 1
      rcases Decidable.em (t ∈ seen ++ [a] ∨ t ∈ l2) with ht | ht
      · rw [if_pos ht, if_pos]
        rcases ht with h1 | h1
        · rcases List.mem_append.mp h1 with h2 | h2
          · exact Or.inl h2
          · simp only [List.mem_singleton] at h2
            exact Or.inr (h2 ▸ List.mem_cons_self a l2)
        · exact Or.inr (List.mem_cons_of_mem a h1)
      · rw [if_neg ht, if_neg]
        rintro (h1 | h1)
        · exact ht (Or.inl (List.mem_append_left [a] h1))
        · rcases List.mem_cons.mp h1 with rfl | h1
          · exact ht (Or.inl (List.mem_append_right seen (List.mem_singleton_self t)))
          · exact ht (Or.inr h1)

lemma firstSeen_append_mem (l : List String) (t : String) (h : t ∈ l) :
    firstSeen (l ++ [t]) = firstSeen l := by
  unfold firstSeen
  rw [firstSeenFrom_append_singleton]
  simp [h]

lemma firstSeen_append_not_mem (l : List String) (t : String) (h : t ∉ l) :
    firstSeen (l ++ [t]) = firstSeen l ++ [t] := by
  unfold firstSeen
  rw [firstSeenFrom_append_singleton]
  simp [h]

lemma firstSeenFrom_nodup (l : List String) :
    ∀ seen, (firstSeenFrom seen l).Nodup ∧ ∀ x ∈ firstSeenFrom seen l, x ∉ seen := by
  induction l with
  | nil =>
    intro seen
    exact ⟨List.nodup_nil, fun x hx => absurd hx (List.not_mem_nil x)⟩
  | cons a l2 ih =>
    intro seen
    rcases Decidable.em (a ∈ seen) with hm | hm
    · simpa only [firstSeenFrom, if_pos hm] using ih seen
    · obtain ⟨hnd, hnotin⟩ := ih (seen ++ [a])
      refine ⟨?_, ?_⟩
      · simp only [firstSeenFrom, if_neg hm]
        refine List.nodup_cons.mpr ⟨?_, hnd⟩
        intro ha
        exact (hnotin a ha) (List.mem_append_right seen (List.mem_singleton_self a))
      · simp only [firstSeenFrom, if_neg hm]
        intro x hx
        rcases List.mem_cons.mp hx with rfl | hx
        · exact hm
        · intro hs
          exact (hnotin x hx) (List.mem_append_left [a] hs)

lemma firstSeen_nodup (l : List String) : (firstSeen l).Nodup :=
  (firstSeenFrom_nodup l []).1

lemma lookupAssoc_map_vstr {α : Type} (l : List String) (f : String → α) (t : String) :
    lookupAssoc (l.map (fun x => (Value.vstr x, f x))) (Value.vstr t)
      = if t ∈ l then some (f t) else none := by
  induction l with
  | nil => simp [lookupAssoc]
  | cons a l2 ih =>
    simp only [List.map_cons, lookupAssoc, Value.vstr.injEq]
    rcases Decidable.em (a = t) with rfl | hne
    · simp
    · have hta : ¬ (t = a) := fun h => hne h.symm
      simp [hne, hta, ih]

lemma updateAssoc_map_vstr {α : Type} (f : String → α) (t : String) (v : α) :
    ∀ (l : List String), l.Nodup → t ∈ l →
      updateAssoc (l.map (fun x => (Value.vstr x, f x))) (Value.vstr t) v
        = l.map (fun x => (Value.vstr x, if x = t then v else f x)) := by
  intro l
  induction l with
  | nil => intro _ ht; cases ht
  | cons a l2 ih =>
    intro hn ht
    obtain ⟨hna, hn2⟩ := List.nodup_cons.mp hn
    rcases Decidable.em (a = t) with rfl | hne
    · simp only [List.map_cons, updateAssoc, eq_self_iff_true, if_true]
      congr 1
      apply List.map_congr_left
      intro x hx
      have hxa : ¬ (x = a) := fun h => hna (h ▸ hx)
      rw [if_neg hxa]
    · have ht2 : t ∈ l2 := by
        rcases List.mem_cons.mp ht with rfl | h2
        · exact absurd rfl hne
        · exact h2
      simp only [List.map_cons, updateAssoc, Value.vstr.injEq, if_neg hne, ih hn2 ht2,
        if_neg hne]

lemma foldl_add_filterMap (l : List (Option Int)) :
    ∀ a : Int, (l.filterMap id).foldl (fun x y => x + y) a
      = (l.map (fun o => o.getD 0)).foldl (fun x y => x + y) a := by
  induction l with
  | nil => intro a; rfl
  | cons o l2 ih =>
    intro a
    cases o with
    | none =>
      show (l2.filterMap id).foldl (fun x y => x + y) a = _
      rw [ih a]
      simp
    | some v =>
      show (v :: l2.filterMap id).foldl (fun x y => x + y) a = _
      simp only [List.foldl_cons, List.map_cons, Option.getD_some]
      exact ih (a + v)

lemma filter_vstr_eq (rows : List AccountRow) (t : String) :
    rows.filter (fun r => decide (Value.vstr r.accountType = Value.vstr t))
      = rows.filter (fun r => decide (r.accountType = t)) := by
  apply List.filter_congr
  intro r _
  simp

lemma pyBal_eq (rows : List AccountRow) (t : String) :
    pyBal rows t = Value.vnum (balSumNullZero rows t) := by
  have hsum := foldl_add_filterMap
    ((rows.filter (fun r => decide (r.accountType = t))).map (fun r => r.balance)) 0
  have hfm : ((rows.filter (fun r => decide (r.accountType = t))).map
        (fun r => r.balance)).filterMap id
      = (rows.filter (fun r => decide (r.accountType = t))).filterMap
          (fun r => r.balance) := by
    rw [List.filterMap_map]
    rfl
  have hmap : ((rows.filter (fun r => decide (r.accountType = t))).map
        (fun r => r.balance)).map (fun o => o.getD 0)
      = (rows.filter (fun r => decide (r.accountType = t))).map
          (fun r => r.balance.getD 0) := by
    rw [List.map_map]
    rfl
  rw [hfm, hmap] at hsum
  unfold pyBal sqlSumWhereType
  rw [filter_vstr_eq]
  rcases hsplit : (rows.filter (fun r => decide (r.accountType = t))).filterMap
      (fun r => r.balance) with _ | ⟨v, vs⟩
  · rw [hsplit] at hsum ⊢
    simp only [List.foldl_nil] at hsum
    have hB : balSumNullZero rows t = 0 := hsum.symm
    show (if pyTruthy Value.vnull = true then Value.vnull else Value.vnum 0)
        = Value.vnum (balSumNullZero rows t)
    rw [hB]
    rfl
  · rw [hsplit] at hsum ⊢
    have hB : balSumNullZero rows t = (v :: vs).foldl (fun x y => x + y) 0 := hsum.symm
    show (if pyTruthy (Value.vnum ((v :: vs).foldl (fun a b => a + b) 0)) = true
          then Value.vnum ((v :: vs).foldl (fun a b => a + b) 0) else Value.vnum 0)
        = Value.vnum (balSumNullZero rows t)
    rw [hB]
    rcases Decidable.em ((v :: vs).foldl (fun x y => x + y) 0 = 0) with hz | hz
    · rw [hz]
      simp [pyTruthy]
    · simp only [pyTruthy]
      rcases Decidable.em ((v :: vs).foldl (fun x y => x + y) 0 = 0) with hz2 | hz2
      · exact absurd hz2 hz
      · rw [if_pos (decide_eq_true hz2)]

lemma typeLoop_inv (rows : List AccountRow) :
    ∀ (r p : List String),
      typeLoop (fun t => Except.ok (sqlSumWhereType rows t)) (r.map Value.vstr)
        ((firstSeen p).map (fun x => (Value.vstr x, cnt p x)))
        ((firstSeen p).map (fun x => (Value.vstr x, pyBal rows x)))
      = Except.ok
          ((firstSeen (p ++ r)).map (fun x => (Value.vstr x, cnt (p ++ r) x)),
           (firstSeen (p ++ r)).map (fun x => (Value.vstr x, pyBal rows x))) := by
  intro r
  induction r with
  | nil => intro p; simp [typeLoop]
  | cons t r2 ih =>
    intro p
    have hmain : p ++ t :: r2 = (p ++ [t]) ++ r2 := by simp
    rcases Decidable.em (t ∈ p) with hm | hm
    · have hlook : lookupAssoc ((firstSeen p).map (fun x => (Value.vstr x, cnt p x)))
          (Value.vstr t) = some (cnt p t) := by
        rw [lookupAssoc_map_vstr]
        simp [(mem_firstSeen p t).mpr hm]
      have hupd : updateAssoc ((firstSeen p).map (fun x => (Value.vstr x, cnt p x)))
            (Value.vstr t) (cnt p t + 1)
          = (firstSeen (p ++ [t])).map (fun x => (Value.vstr x, cnt (p ++ [t]) x)) := by
        rw [firstSeen_append_mem p t hm]
        rw [updateAssoc_map_vstr (cnt p) t (cnt p t + 1) (firstSeen p) (firstSeen_nodup p)
          ((mem_firstSeen p t).mpr hm)]
        apply List.map_congr_left
        intro x hx
        rcases Decidable.em (x = t) with rfl | hxt
        · simp [cnt_append, cnt_singleton]
        · have htx : ¬ (t = x) := fun h => hxt h.symm
          simp [cnt_append, cnt_singleton, hxt, htx]
      have hbal : (firstSeen p).map (fun x => (Value.vstr x, pyBal rows x))
          = (firstSeen (p ++ [t])).map (fun x => (Value.vstr x, pyBal rows x)) := by
        rw [firstSeen_append_mem p t hm]
      simp only [List.map_cons, typeLoop, hlook]
      rw [hupd, hbal, hmain]
      exact ih (p ++ [t])
    · have hlook : lookupAssoc ((firstSeen p).map (fun x => (Value.vstr x, cnt p x)))
          (Value.vstr t) = none := by
        rw [lookupAssoc_map_vstr]
        have hnfs : t ∉ firstSeen p := fun h => hm ((mem_firstSeen p t).mp h)
        simp [hnfs]
      have hcnts : (firstSeen p).map (fun x => (Value.vstr x, cnt p x)) ++ [(Value.vstr t, 1)]
          = (firstSeen (p ++ [t])).map (fun x => (Value.vstr x, cnt (p ++ [t]) x)) := by
        rw [firstSeen_append_not_mem p t hm, List.map_append]
        congr 1
        · apply List.map_congr_left
          intro x hx
          have hxp : x ∈ p := (mem_firstSeen p x).mp hx
          have hxt : ¬ (t = x) := fun h => hm (h ▸ hxp)
          simp [cnt_append, cnt_singleton, hxt]
        · simp [cnt_append, cnt_singleton, cnt_eq_zero_of_not_mem p t hm]
      have hbals : (firstSeen p).map (fun x => (Value.vstr x, pyBal rows x))
            ++ [(Value.vstr t,
                  if pyTruthy (sqlSumWhereType rows (Value.vstr t))
                  then sqlSumWhereType rows (Value.vstr t) else Value.vnum 0)]
          = (firstSeen (p ++ [t])).map (fun x => (Value.vstr x, pyBal rows x)) := by
        rw [firstSeen_append_not_mem p t hm, List.map_append]
        congr 1
      simp only [List.map_cons, typeLoop, hlook]
      rw [hcnts, hbals, hmain]
      exact ih (p ++ [t])

lemma cnt_map_type (rows : List AccountRow) (t : String) :
    cnt (rows.map (fun r => r.accountType)) t
      = (rows.filter (fun r => decide (r.accountType = t))).length := by
  unfold cnt
  rw [List.filter_map]
  rw [List.length_map]
  rfl

/-- C1: against any snapshot of the `Accounts` table, the per-account-type
loop yields exactly one (type, count) and one (type, total) entry per distinct
`AccountType` value, both dictionaries keyed in order of first occurrence in
the fetched sequence; each count is the number of rows carrying the type and
each total is the sum of `Balance` over those rows with NULL treated as 0. -/
theorem c1_aggregation_by_type (rows : List AccountRow) :
    typeLoop (fun t => Except.ok (sqlSumWhereType rows t))
        (rows.map (fun r => Value.vstr r.accountType)) [] []
      = Except.ok
          ((firstSeen (rows.map (fun r => r.accountType))).map
              (fun t => (Value.vstr t,
                (rows.filter (fun r => decide (r.accountType = t))).length)),
           (firstSeen (rows.map (fun r => r.accountType))).map
              (fun t => (Value.vstr t, Value.vnum (balSumNullZero rows t)))) := by
  have h0 := typeLoop_inv rows (rows.map (fun r => r.accountType)) []
  simp only [List.nil_append] at h0
  have hmaps : rows.map (fun r => Value.vstr r.accountType)
      = (rows.map (fun r => r.accountType)).map Value.vstr := by
    rw [List.map_map]
    rfl
  have hinit : (firstSeen ([] : List String)) = [] := rfl
  rw [hinit] at h0
  simp only [List.map_nil] at h0
  rw [hmaps, h0]
  congr 1
  congr 1
  · apply List.map_congr_left
    intro x _
    rw [cnt_map_type]
  · apply List.map_congr_left
    intro x _
    rw [pyBal_eq]

/-! ### Currency formatting, CSV export and the custom SQL query handler -/

/-- Insert thousands separators into a reversed digit list (index counts
digits already emitted). -/
def commaRev : List Char → Nat → List Char
  | [], _ => []
  | c :: cs, i =>
    if i % 3 = 0 ∧ i ≠ 0 then ',' :: c :: commaRev cs (i + 1)
    else c :: commaRev cs (i + 1)

/-- Group the digits of a decimal numeral with commas, as Python `f"{n:,}"`
does for the integer part. -/
def groupDigits (s : String) : String :=
  String.mk (commaRev s.data.reverse 0).reverse

/-- Python `f"${x:,.2f}"` on an integral balance: dollar sign, optional minus,
comma-grouped digits, two decimal places. -/
def fmtCurrency (x : Int) : String :=
  "$" ++ (if x < 0 then "-" else "") ++ groupDigits (toString x.natAbs) ++ ".00"

/-- Index of a column name in a header list (first match), 0-based. -/
def idxOfCol : List String → String → Nat
  | [], _ => 0
  | c :: cs, n => if c = n then 0 else idxOfCol cs n + 1

/-- The guarded lambda of `app.py` line 536:
`lambda x: f"${x:,.2f}" if isinstance(x, (int, float)) else x`. -/
def fmtCellGuarded : Value → Value
  | Value.vnum n => Value.vstr (fmtCurrency n)
  | v => v

/-- `df["Balance"] = df["Balance"].apply(guarded lambda)` under the
`if "Balance" in df.columns` check (lines 535-536): replaces the Balance
column of the same frame with display strings. -/
def formatBalanceGuarded (df : DF) : DF :=
  if "Balance" ∈ df.cols then
    ⟨df.cols, df.rows.map (fun r =>
      r.set (idxOfCol df.cols "Balance") (fmtCellGuarded (r.getD (idxOfCol df.cols "Balance") Value.vnull)))⟩
  else df

/-- The unguarded lambda of lines 278 and 493: `lambda x: f"${x:,.2f}"`.
Applying it to a non-numeric cell raises (modelled `none`); NULL cells kept
as Python `None` in an object column also make the format call raise. -/
def fmtCellStrict : Value → Option Value
  | Value.vnum n => some (Value.vstr (fmtCurrency n))
  | _ => none

/-- `if "Balance" in df.columns: df["Balance"] = df["Balance"].apply(lambda
x: f"${x:,.2f}")` — the in-place Balance formatting of `app.py` lines 276-278
(dashboard top-5 table) and 491-493 (explorer display copy). -/
def formatBalanceCol (df : DF) : Option DF :=
  if "Balance" ∈ df.cols then
    (df.rows.mapM (fun r =>
        (fmtCellStrict (r.getD (idxOfCol df.cols "Balance") Value.vnull)).map
          (fun v => r.set (idxOfCol df.cols "Balance") v))).map
      (fun rs => ⟨df.cols, rs⟩)
  else some df

/-- Does a CSV field need quoting under pandas QUOTE_MINIMAL? -/
def needsQuote (s : String) : Bool :=
  s.data.any (fun c => c = ',' || c = Char.ofNat 34 || c = Char.ofNat 10)

/-- Quote a CSV field when needed, doubling embedded quote characters. -/
def csvQuote (s : String) : String :=
  if needsQuote s then
    String.mk (Char.ofNat 34 ::
      (s.data.foldr (fun c acc =>
        if c = Char.ofNat 34 then Char.ofNat 34 :: Char.ofNat 34 :: acc else c :: acc)
        [Char.ofNat 34]))
  else s

/-- Text a cell contributes to `to_csv`: NULL becomes empty, numbers their
decimal text, strings themselves (quoted when needed). -/
def csvCell : Value → String
  | Value.vnull => ""
  | Value.vnum n => toString n
  | Value.vstr s => csvQuote s

/-- `df.to_csv(index=False)`: header line of the column names in frame order,
then one line per row, comma-separated, each line newline-terminated. -/
def toCSV (df : DF) : String :=
  String.intercalate "," (df.cols.map csvQuote) ++ "\n"
    ++ String.join (df.rows.map (fun r =>
        String.intercalate "," (r.map csvCell) ++ "\n"))

/-- Outcome of one press of the "Run Query" button (lines 518-552). -/
inductive RunQueryOutcome where
  | results (shown : DF) (csv : String)
  | noResults
  | errorMsg (msg : String)
deriving DecidableEq, Repr

/-- The body of the `try` at line 519: execute, fetch, build the frame,
format the Balance column in place, then serialize that same frame for the
download button.  Any raised step becomes `Except.error`. -/
def runQueryBody (resp : Except String QueryResult) : Except String RunQueryOutcome := do
  let q ← resp
  if q.rows.isEmpty then
    return RunQueryOutcome.noResults
  else
    match mkDF q.rows q.cols with
    | none => Except.error "Shape of passed values does not match columns"
    | some df =>
      let dfF := formatBalanceGuarded df
      return RunQueryOutcome.results dfF (toCSV dfF)

/-- Lines 518-552 as a function of the driver response: the `except` at line
551 turns any raised exception into the
`st.error(f"Error executing query: {e}")` message. -/
def handleQueryResponse (resp : Except String QueryResult) : RunQueryOutcome :=
  match runQueryBody resp with
  | Except.ok o => o
  | Except.error e => RunQueryOutcome.errorMsg ("Error executing query: " ++ e)

/-- One press of "Run Query" with SQL text `sql` against a live connection
whose `execute` behaviour is `dbRun`. -/
def runQuery (dbRun : String → Except String QueryResult) (sql : String) : RunQueryOutcome :=
  handleQueryResponse (dbRun sql)

/-- A driver whose `execute` may never return: `none` models a call that
blocks forever, so the handler produces no outcome at all. -/
def runQueryDriverMayStall (db : String → Option (Except String QueryResult))
    (sql : String) : Option RunQueryOutcome :=
  (db sql).map handleQueryResponse

/-- C6: the query surface passes no timeout to the driver; against a
connection whose `execute` never returns, the code produces no outcome at
all — in particular never a typed Timeout failure (no such error kind exists
anywhere in the handler). -/
theorem c6_no_timeout_outcome :
    runQueryDriverMayStall (fun _ => none) "SELECT * FROM Accounts" = none := rfl

/-- C5 (amended): every driver-rejected SQL statement surfaces as the typed
error outcome carrying the fixed prefix and the driver message verbatim;
no exception escapes the handler.  (The original SQL text is not part of the
message.) -/
theorem c5_error_surfaced (dbRun : String → Except String QueryResult)
    (sql e : String) (h : dbRun sql = Except.error e) :
    runQuery dbRun sql = RunQueryOutcome.errorMsg ("Error executing query: " ++ e) := by
  unfold runQuery handleQueryResponse runQueryBody
  rw [h]
  rfl

/-- Witness for C5 at a concrete malformed statement. -/
theorem c5_error_surfaced_witness :
    runQuery (fun _ => Except.error "Incorrect syntax near SELEC.") "SELEC * FROM Accounts"
      = RunQueryOutcome.errorMsg ("Error executing query: " ++ "Incorrect syntax near SELEC.") :=
  c5_error_surfaced (fun _ => Except.error "Incorrect syntax near SELEC.")
    "SELEC * FROM Accounts" "Incorrect syntax near SELEC." rfl

/-- Is `p` a contiguous sublist of `l`? -/
def isSubChars (p : List Char) : List Char → Bool
  | [] => decide (p = [])
  | c :: cs => decide (p.isPrefixOf (c :: cs)) || isSubChars p cs

/-- Counterexample to C5 as stated: the surfaced message is only the prefixed
driver message; the original SQL text is not contained in it. -/
theorem c5_counterexample_sql_text_absent :
    runQuery (fun _ => Except.error "Incorrect syntax near the keyword FROM.")
        "SELEC * FROM Accounts"
      = RunQueryOutcome.errorMsg "Error executing query: Incorrect syntax near the keyword FROM."
    ∧ isSubChars "SELEC * FROM Accounts".data
        "Error executing query: Incorrect syntax near the keyword FROM.".data = false := by
  constructor
  · rfl
  · decide

/-- C4 (code flaw, lines 534-547): the custom-query download serializes the
frame after its Balance column was replaced by display strings, so the CSV
carries the currency-formatted text (quoted, as it embeds a comma), not the
raw value 5000.  (The filtered-data download at lines 502-507 does serialize
the raw frame.) -/
theorem c4_query_results_csv_formatted :
    runQuery (fun _ => Except.ok
        ⟨["AccountNumber", "Balance", "AccountType"],
         [[Value.vstr "ACC-1", Value.vnum 5000, Value.vstr "Checking"]]⟩)
      "SELECT AccountNumber, Balance, AccountType FROM Accounts WHERE Balance > 4000"
      = RunQueryOutcome.results
          ⟨["AccountNumber", "Balance", "AccountType"],
           [[Value.vstr "ACC-1", Value.vstr "$5,000.00", Value.vstr "Checking"]]⟩
          "AccountNumber,Balance,AccountType\nACC-1,\"$5,000.00\",Checking\n" := by
  rfl

/-- `if "Balance" in df_top_accounts.columns:` then the in-place strict
format, composed after the top-5 adaptation — the dashboard table retained
after lines 276-278 of `app.py`. -/
def dashboardTop5Table (tops : List (List Value)) : Option DF :=
  (adaptTop5 tops).bind formatBalanceCol

/-- C8 (code flaw, lines 276-278): the dashboard formats the Balance column
of `df_top_accounts` in place — after the step, the table the program holds
carries the display string where the raw numeric 10 used to be; no separate
raw view survives (unlike lines 491-493, which format a `.copy()`). -/
theorem c8_dashboard_format_in_place :
    dashboardTop5Table [[Value.vstr "ACC-9", Value.vnum 10, Value.vstr "Savings"]]
      = some ⟨expectedCols,
          [[Value.vstr "ACC-9", Value.vstr "$10.00", Value.vstr "Savings"]]⟩ := by
  rfl

/-! ### Page bodies, `main`, and the connection lifecycle -/

/-- `row[0]` on a fetched tuple. -/
def sub0 : List Value → Except String Value
  | [] => Except.error "tuple index out of range"
  | v :: _ => Except.ok v

/-- `cursor.fetchone()[0]`: `fetchone` yields `None` on an empty result and
subscripting `None` raises. -/
def fetchoneSub0 (q : QueryResult) : Except String Value :=
  match q.rows with
  | [] => Except.error "NoneType object is not subscriptable"
  | row :: _ => sub0 row

/-- `f"{v:,}"`: thousands-grouped integer; raises on `None` or a string. -/
def fmtThousandsE : Value → Except String String
  | Value.vnum n => Except.ok ((if n < 0 then "-" else "") ++ groupDigits (toString n.natAbs))
  | Value.vnull => Except.error "unsupported format string passed to NoneType"
  | Value.vstr _ => Except.error "Cannot specify a comma with string format specifier"

/-- `f"${v:,.2f}"`: currency text; raises on `None` or a string. -/
def fmtMoneyE : Value → Except String String
  | Value.vnum n => Except.ok (fmtCurrency n)
  | Value.vnull => Except.error "unsupported format string passed to NoneType"
  | Value.vstr _ => Except.error "Unknown format code f for object of type str"

/-- What a details-page render carries below the account selector. -/
inductive DetailsSub where
  | nothingSelected
  | fetchError (msg : String)
  | notFound (acc : Value)
  | shown (fields : List (String × Value))
deriving Repr

/-- The payload each page hands the external renderer (charts, tables and
markdown are terminal sinks; the fields kept are the data they are built
from). -/
inductive Render where
  | dashboard (metrics : String × String × String)
      (byType : List (Value × Nat) × List (Value × Value))
      (balances : List Value) (top5 : DF)
  | dashboardError (msg : String)
  | details (fallbackUsed : Bool) (options : List Value) (sub : DetailsSub)
  | explorer (shown : DF) (downloadCsv : String) (query : Option RunQueryOutcome)
  | explorerFallback (msg : String) (tables : Option (List Value))
deriving Repr

/-- The body of the `try` at line 124 of `display_dashboard`: metric queries
and their f-string formatting, the account-type list, the per-type loop with
its parameterised SUM queries, the balance list, and the top-5 table with its
in-place Balance formatting. -/
def dashboardBody (conn : DBConn) : Except String Render := do
  let q1 ← conn.run "SELECT COUNT(*) FROM Accounts" []
  let total_accounts ← fetchoneSub0 q1
  let q2 ← conn.run "SELECT SUM(Balance) FROM Accounts" []
  let total_balance ← fetchoneSub0 q2
  let q3 ← conn.run "SELECT AVG(Balance) FROM Accounts" []
  let avg_balance ← fetchoneSub0 q3
  let m1 ← fmtThousandsE total_accounts
  let m2 ← fmtMoneyE total_balance
  let m3 ← fmtMoneyE avg_balance
  let qt ← conn.run "SELECT AccountType FROM Accounts" []
  let types ← qt.rows.mapM sub0
  let agg ← typeLoop (fun t =>
      (conn.run "SELECT SUM(Balance) FROM Accounts WHERE AccountType = ?" [t]).bind
        fetchoneSub0)
    types [] []
  let qb ← conn.run "SELECT Balance FROM Accounts" []
  let balances ← qb.rows.mapM sub0
  let q5 ← conn.run
    "SELECT TOP 5 AccountNumber, Balance, AccountType FROM Accounts ORDER BY Balance DESC" []
  let top5 ← match adaptTop5 q5.rows with
    | some df => Except.ok df
    | none => Except.error "Shape of passed values does not match columns"
  let top5f ← match formatBalanceCol top5 with
    | some df => Except.ok df
    | none => Except.error "Unknown format code f for object of type str"
  return Render.dashboard (m1, m2, m3) agg balances top5f

/-- `display_dashboard`: body plus the `except` at line 287. -/
def display_dashboard (conn : DBConn) : Render :=
  match dashboardBody conn with
  | Except.ok r => r
  | Except.error e => Render.dashboardError ("Error fetching dashboard data: " ++ e)

/-- The hard-coded sample account numbers of `app.py` line 308. -/
def sampleAccountNumbers : List Value :=
  [Value.vstr "ACC-10001", Value.vstr "ACC-10002", Value.vstr "ACC-10003"]

/-- Lines 302-308: fetch the account numbers; if the query (or the `row[0]`
comprehension) raises, warn and fall back to the sample values.  The Bool is
whether the fallback warning was shown. -/
def accountNumbersShown (conn : DBConn) : List Value × Bool :=
  match (conn.run "SELECT AccountNumber FROM Accounts" []).bind
      (fun q => q.rows.mapM sub0) with
  | Except.ok vs => (vs, false)
  | Except.error _ => (sampleAccountNumbers, true)

/-- Lines 313-423 condensed to the fetched data: the details row fetch with
its own `except`, the not-found branch, and the field dictionary
`dict(zip(column_names, row))`.  The markdown blocks, comparison chart
(which has its own inner `except`) and action buttons render from these
fields and are terminal sinks. -/
def detailsFor (conn : DBConn) (sel : Value) : DetailsSub :=
  match conn.run "SELECT * FROM Accounts WHERE AccountNumber = ?" [sel] with
  | Except.error e => DetailsSub.fetchError ("Error retrieving account details: " ++ e)
  | Except.ok q =>
    match q.rows with
    | [] => DetailsSub.notFound sel
    | row :: _ => DetailsSub.shown (q.cols.zip row)

/-- `display_account_details`: the selector takes the first option
(`st.selectbox` default); `if selected_account:` is Python truthiness. -/
def display_account_details (conn : DBConn) : Render :=
  match accountNumbersShown conn with
  | (options, warned) =>
    match options with
    | [] => Render.details warned options DetailsSub.nothingSelected
    | sel :: _ =>
      if pyTruthy sel then Render.details warned options (detailsFor conn sel)
      else Render.details warned options DetailsSub.nothingSelected

/-- The widget inputs the Data Explorer page reads. -/
structure ExplorerUI where
  typeChoice : String
  lo : Int
  hi : Int
  runClicked : Bool
  sqlText : String

/-- Minimum and maximum of a nonempty list. -/
def listMinMax : List Int → Option (Int × Int)
  | [] => none
  | n :: ns => some (ns.foldl min n, ns.foldl max n)

/-- `float(df["Balance"].min())`, `.max()` and the `st.slider` call: a string
in the column makes the conversion raise; a column with no numeric value
leaves NaN bounds the slider call rejects.  (NaN cells are skipped by the
pandas reductions.) -/
def sliderBounds (vs : List Value) : Except String (Int × Int) :=
  if vs.any (fun v => match v with | Value.vstr _ => true | _ => false) then
    Except.error "could not convert string to float"
  else
    match listMinMax (vs.filterMap
        (fun v => match v with | Value.vnum n => some n | _ => none)) with
    | none => Except.error "slider bounds are not a number"
    | some mm => Except.ok mm

/-- The values of one named column (rows are uniform after `mkDF`). -/
def colValues (df : DF) (name : String) : List Value :=
  df.rows.map (fun r => r.getD (idxOfCol df.cols name) Value.vnull)

/-- `df[df[name] == v]`: pandas elementwise equality never raises. -/
def rowFilterEq (df : DF) (name : String) (v : Value) : DF :=
  ⟨df.cols, df.rows.filter (fun r => decide (r.getD (idxOfCol df.cols name) Value.vnull = v))⟩

/-- One cell of `(df[name] >= lo) & (df[name] <= hi)`: ordering against a
non-numeric cell raises. -/
def rangeKeep (lo hi : Int) : Value → Except String Bool
  | Value.vnum n => Except.ok (decide (lo ≤ n) && decide (n ≤ hi))
  | _ => Except.error "not supported between instances of str and float"

/-- `df[(df[name] >= lo) & (df[name] <= hi)]`. -/
def rowFilterRange (df : DF) (name : String) (lo hi : Int) : Except String DF := do
  let pairs ← df.rows.mapM (fun r => do
    let b ← rangeKeep lo hi (r.getD (idxOfCol df.cols name) Value.vnull)
    pure (r, b))
  pure ⟨df.cols, (pairs.filter (fun rb => rb.2)).map (fun rb => rb.1)⟩

/-- The body of the `try` at line 437: fetch, build the frame, read the
filter widgets, filter on the raw values, format a display copy, serialize
the raw filtered frame for download, and run the custom query if clicked. -/
def explorerFlow (conn : DBConn) (ui : ExplorerUI) : Except String Render := do
  let q ← conn.run "SELECT AccountNumber, Balance, AccountType FROM Accounts" []
  let df ← match mkDF q.rows q.cols with
    | some d => Except.ok d
    | none => Except.error "Shape of passed values does not match columns"
  let selectedType := if "AccountType" ∈ df.cols then ui.typeChoice else "All"
  let range ← if "Balance" ∈ df.cols then do
      let _ ← sliderBounds (colValues df "Balance")
      pure (ui.lo, ui.hi)
    else pure ((0 : Int), (0 : Int))
  let f1 := if selectedType ≠ "All" ∧ "AccountType" ∈ df.cols
    then rowFilterEq df "AccountType" (Value.vstr selectedType) else df
  let f2 ← if "Balance" ∈ f1.cols then rowFilterRange f1 "Balance" range.1 range.2
    else pure f1
  let disp ← match formatBalanceCol f2 with
    | some d => Except.ok d
    | none => Except.error "Unknown format code f for object of type str"
  let csv := toCSV f2
  let outcome := if ui.runClicked then some (runQuery (fun s => conn.run s []) ui.sqlText)
    else none
  return Render.explorer disp csv outcome

/-- Lines 554-582: report the failure, then list the base tables (that lookup
and the structure viewer carry their own `except` blocks). -/
def tableFinder (conn : DBConn) (e : String) : Render :=
  match (conn.run
        "SELECT TABLE_NAME FROM INFORMATION_SCHEMA.TABLES WHERE TABLE_TYPE = \x27BASE TABLE\x27"
        []).bind
      (fun q => q.rows.mapM sub0) with
  | Except.ok tables =>
    Render.explorerFallback ("Error querying Accounts table: " ++ e) (some tables)
  | Except.error _ =>
    Render.explorerFallback ("Error querying Accounts table: " ++ e) none

/-- `display_data_explorer`: inner flow plus the `except` chain at 554/584. -/
def display_data_explorer (conn : DBConn) (ui : ExplorerUI) : Render :=
  match explorerFlow conn ui with
  | Except.ok r => r
  | Except.error e => tableFinder conn e

/-- The sidebar page choice. -/
inductive Page where
  | dashboard
  | accountDetails
  | dataExplorer
deriving DecidableEq, Repr

def pageRender (page : Page) (conn : DBConn) (ui : ExplorerUI) : Render :=
  match page with
  | Page.dashboard => display_dashboard conn
  | Page.accountDetails => display_account_details conn
  | Page.dataExplorer => display_data_explorer conn ui

/-- The page call as `main` sees it: each display function wraps its body in
a broad `except`, so the dispatch returns rather than raises — which is what
the `Except.ok` records. -/
def pageDispatch (page : Page) (conn : DBConn) (ui : ExplorerUI) : Except String Render :=
  Except.ok (pageRender page conn ui)

/-- Lines 107-116 of `main`: dispatch the selected page, then `conn.close()`.
There is no `finally`: an exception escaping the dispatch would skip the
close, which the Bool records. -/
def mainWithConn (conn : DBConn) (page : Page) (ui : ExplorerUI) :
    Except String (Render × Bool) :=
  match pageDispatch page conn ui with
  | Except.error e => Except.error e
  | Except.ok r => Except.ok (r, true)

/-- The four environment variables `connect_to_db` reads. -/
structure Env where
  server : Option String
  database : Option String
  username : Option String
  password : Option String

/-- `os.getenv` interpolated into an f-string: a missing variable becomes the
text `None`. -/
def pyOptStr : Option String → String
  | none => "None"
  | some s => s

/-- The connection string of lines 25-32. -/
def connStrOf (env : Env) : String :=
  "DRIVER=\x7bODBC Driver 17 for SQL Server\x7d;SERVER=" ++ pyOptStr env.server
    ++ ";DATABASE=" ++ pyOptStr env.database
    ++ ";UID=" ++ pyOptStr env.username
    ++ ";PWD=" ++ pyOptStr env.password

/-- `connect_to_db` (lines 22-39): any raised driver error is caught, shown,
and turned into `None`. -/
def connect_to_db (env : Env) (driver : String → Except String DBConn) : Option DBConn :=
  match driver (connStrOf env) with
  | Except.ok c => some c
  | Except.error _ => none

/-- What one run of `main` produces: the configuration form (connection
failed, lines 91-105, reached before any page dispatch), or a page render
plus whether the connection was closed. -/
inductive MainOutcome where
  | configForm
  | ran (r : Render) (closed : Bool)

/-- `main` after the sidebar: connect, render the config form on `None`,
otherwise dispatch the page and close the connection. -/
def appMain (env : Env) (driver : String → Except String DBConn) (page : Page)
    (ui : ExplorerUI) : Except String MainOutcome :=
  match connect_to_db env driver with
  | none => Except.ok MainOutcome.configForm
  | some conn =>
    match mainWithConn conn page ui with
    | Except.error e => Except.error e
    | Except.ok rc => Except.ok (MainOutcome.ran rc.1 rc.2)

/-- C7: whatever the connection's behaviour (every query may fail) and
whichever page is selected, the request reaches `conn.close()` — each page
body is wrapped in a broad `except`, so no exit path skips the close. -/
theorem c7_connection_closed (conn : DBConn) (page : Page) (ui : ExplorerUI) :
    ∃ r, mainWithConn conn page ui = Except.ok (r, true) :=
  ⟨pageRender page conn ui, rfl⟩

/-- C9: a driver failure (including the missing-variable case, where the
connection string carries the text `None`) makes `connect_to_db` return
`None` rather than raise, and `main` then renders the configuration form and
dispatches no page against the absent connection. -/
theorem c9_connect_failure_config_form (env : Env)
    (driver : String → Except String DBConn) (page : Page) (ui : ExplorerUI)
    (e : String) (h : driver (connStrOf env) = Except.error e) :
    connect_to_db env driver = none
      ∧ appMain env driver page ui = Except.ok MainOutcome.configForm := by
  have hc : connect_to_db env driver = none := by
    unfold connect_to_db
    rw [h]
  refine ⟨hc, ?_⟩
  unfold appMain
  rw [hc]

/-- Witness for C9: empty environment, a driver that rejects the connection
string. -/
theorem c9_connect_failure_config_form_witness :
    connect_to_db ⟨none, none, none, none⟩
        (fun _ => Except.error "IM002 data source name not found") = none
      ∧ appMain ⟨none, none, none, none⟩
          (fun _ => Except.error "IM002 data source name not found")
          Page.dashboard ⟨"All", 0, 0, false, ""⟩ = Except.ok MainOutcome.configForm :=
  c9_connect_failure_config_form ⟨none, none, none, none⟩
    (fun _ => Except.error "IM002 data source name not found")
    Page.dashboard ⟨"All", 0, 0, false, ""⟩ "IM002 data source name not found" rfl

/-- C10: when the account-number query fails, the selector is populated with
the three fabricated sample identifiers (and the fallback warning shown). -/
theorem c10_account_numbers_fallback (conn : DBConn) (e : String)
    (h : conn.run "SELECT AccountNumber FROM Accounts" [] = Except.error e) :
    accountNumbersShown conn = (sampleAccountNumbers, true)
      ∧ ∃ sub, display_account_details conn
          = Render.details true sampleAccountNumbers sub := by
  have ha : accountNumbersShown conn = (sampleAccountNumbers, true) := by
    unfold accountNumbersShown
    rw [h]
    rfl
  refine ⟨ha, ?_⟩
  unfold display_account_details
  rw [ha]
  exact ⟨detailsFor conn (Value.vstr "ACC-10001"), rfl⟩

/-- Witness for C10: a connection that rejects every query. -/
theorem c10_account_numbers_fallback_witness :
    accountNumbersShown ⟨fun _ _ => Except.error "Invalid object name Accounts"⟩
        = (sampleAccountNumbers, true)
      ∧ ∃ sub, display_account_details
            ⟨fun _ _ => Except.error "Invalid object name Accounts"⟩
          = Render.details true sampleAccountNumbers sub :=
  c10_account_numbers_fallback ⟨fun _ _ => Except.error "Invalid object name Accounts"⟩
    "Invalid object name Accounts" rfl
